import Mathlib

/-!
Shallow embedding of the worker offload subsystem of `src/OPFSQuery.js`:
the worker executor (the `workerContent` message handler), the request
correlator built on the `workerResponseHandler` table (`getFileSize`,
`readFile`, `truncateFile`, `writeFile`, `handleWorkerResponse`), and the
worker pool (`startWorker`, `completeWork`, `clearIdleWorkers`).

Files are byte lists; JS numbers that are byte values or sizes are `Nat`
(`option.size` is `Int` so that the `size >= 0` validity check is visible);
JS `undefined`/`null` slots are `Option.none`.
-/

/-- JS values that flow through worker responses: numbers (sizes, byte
counts), byte buffers, and `Error` objects (kept as their message). -/
inductive Val
  | num (n : Nat)
  | bytes (b : List Nat)
  | exn (m : String)
deriving DecidableEq, Repr

/-- The `option` object of a command message
(`{ at?: int, size?: int, flush?: bool }`).  The JS
`typeof option.size === "number"` check is modelled by `size` being
`Option Int`: `none` is an absent or non-numeric `size`. -/
structure WOption where
  atOpt : Option Nat
  size : Option Int
  flush : Bool
deriving DecidableEq, Repr

/-- A command message posted to a worker:
`{ id, command, data?, option?, fileHandle }`.  `fileHandle` is modelled by
its presence/truthiness only. -/
structure Msg where
  id : Option String
  command : Option String
  data : Option (List Nat)
  option : Option WOption
  fileHandle : Bool
deriving DecidableEq, Repr

/-- A response message posted back by a worker: `{ id, result, error }`.
`respond` always posts all three keys; a nullish `result`/`error`
is `none`. -/
structure Response where
  id : Option String
  result : Option Val
  error : Option String
deriving DecidableEq, Repr

/-- JS truthiness test for a string-valued field: absent or empty is falsy. -/
def falsyS : Option String → Bool
  | none => true
  | some s => s == ""

/-- The worker's validation check `!id || !command || !fileHandle`. -/
def missingParams (m : Msg) : Bool :=
  falsyS m.id || falsyS m.command || !m.fileHandle

/-- Observable events of one run of the worker's `onmessage` handler, in
program order: acquiring the sync access handle, flushing, posting the
response, closing the handle. -/
inductive WEvent
  | acquire
  | flushEv
  | close
  | post (r : Response)
deriving DecidableEq, Repr

/-- Fault injection for the parts of the environment that can throw:
`createSyncAccessHandle` rejecting, or the file operation itself
throwing inside the `try` block (before `respond` is reached). -/
inductive Behavior
  | ok
  | acquireFail (e : String)
  | opFail (e : String)
deriving DecidableEq, Repr

/-- `FileSystemSyncAccessHandle.truncate(n)` on a byte-list file: shrink,
or grow with zero padding. -/
def truncateBytes (file : List Nat) (n : Nat) : List Nat :=
  if n ≤ file.length then file.take n
  else file ++ List.replicate (n - file.length) 0

/-- `accessHandle.read(buffer, {at: k})` where `buffer` is a fresh
zero-filled buffer of length `len`: the copied bytes followed by the
untouched zero tail. -/
def readBuf (file : List Nat) (k len : Nat) : List Nat :=
  let content := (file.drop k).take len
  content ++ List.replicate (len - content.length) 0

/-- `accessHandle.write(d, {at: k})`: overwrite at offset `k`, zero-padding
any gap beyond the current end of file. -/
def writeBytes (file d : List Nat) (k : Nat) : List Nat :=
  (file ++ List.replicate (k - file.length) 0).take k ++ d
    ++ file.drop (k + d.length)

/-- The default `option = {}` of the worker's destructuring. -/
def emptyWOption : WOption := ⟨none, none, false⟩

/-- The worker executor: the `self.onmessage` handler of `workerContent`
(src/OPFSQuery.js lines 26-101), as the ordered list of observable events
plus the resulting file contents.  Mirrors the JS control flow: validation
short-circuits before any handle acquisition; otherwise the handle is
acquired inside `try`, the one operation named by `command` runs and
`respond` posts inside `try` (an unknown command hits the empty `default`
branch and posts nothing), a thrown error is reported by the `catch`
branch, and the `finally` branch closes the handle — after the response —
whenever it was acquired. -/
def workerOnMessage (m : Msg) (b : Behavior) (file : List Nat) :
    List WEvent × List Nat :=
  if missingParams m then
    ([WEvent.post ⟨m.id, none, some "missing id | command | fileHandle!"⟩],
      file)
  else
    match b with
    | Behavior.acquireFail e => ([WEvent.post ⟨m.id, none, some e⟩], file)
    | Behavior.opFail e =>
        ([WEvent.acquire, WEvent.post ⟨m.id, none, some e⟩, WEvent.close],
          file)
    | Behavior.ok =>
        let opt := m.option.getD emptyWOption
        match m.command with
        | some "getSize" =>
            ([WEvent.acquire,
              WEvent.post ⟨m.id, some (Val.num file.length), none⟩,
              WEvent.close], file)
        | some "read" =>
            let k := opt.atOpt.getD 0
            if k ≤ file.length then
              ([WEvent.acquire,
                WEvent.post
                  ⟨m.id, some (Val.bytes (readBuf file k (file.length - k))),
                    none⟩,
                WEvent.close], file)
            else
              -- `new ArrayBuffer(fileSize - option.at)` with a negative
              -- argument throws RangeError, reported by the catch branch.
              ([WEvent.acquire,
                WEvent.post ⟨m.id, none, some "Invalid array buffer length"⟩,
                WEvent.close], file)
        | some "truncate" =>
            match opt.size with
            | some s =>
                if 0 ≤ s then
                  ([WEvent.acquire]
                      ++ (if opt.flush then [WEvent.flushEv] else [])
                      ++ [WEvent.post ⟨m.id, some (Val.num s.toNat), none⟩,
                          WEvent.close],
                    truncateBytes file s.toNat)
                else
                  ([WEvent.acquire,
                    WEvent.post ⟨m.id, some (Val.num 0), none⟩,
                    WEvent.close], file)
            | none =>
                ([WEvent.acquire,
                  WEvent.post ⟨m.id, some (Val.num 0), none⟩,
                  WEvent.close], file)
        | some "write" =>
            match m.data with
            | some d =>
                ([WEvent.acquire]
                    ++ (if opt.flush then [WEvent.flushEv] else [])
                    ++ [WEvent.post ⟨m.id, some (Val.num d.length), none⟩,
                        WEvent.close],
                  writeBytes file d (opt.atOpt.getD 0))
            | none =>
                ([WEvent.acquire,
                  WEvent.post ⟨m.id, some (Val.num 0), none⟩,
                  WEvent.close], file)
        | _ => ([WEvent.acquire, WEvent.close], file)

/-- The responses among a worker event list, in posting order. -/
def postsOf : List WEvent → List Response
  | [] => []
  | WEvent.post r :: rest => r :: postsOf rest
  | _ :: rest => postsOf rest

/-- Number of responses posted. -/
def postCount (evs : List WEvent) : Nat := (postsOf evs).length

/-- Number of `close` calls on the access handle. -/
def closeCount : List WEvent → Nat
  | [] => 0
  | WEvent.close :: rest => closeCount rest + 1
  | _ :: rest => closeCount rest

/-- Number of acquisitions of the access handle. -/
def acquireCount : List WEvent → Nat
  | [] => 0
  | WEvent.acquire :: rest => acquireCount rest + 1
  | _ :: rest => acquireCount rest

/-- Whether a `close` occurs strictly before the first posted response. -/
def closedBeforeFirstPost : List WEvent → Bool
  | [] => false
  | WEvent.close :: _ => true
  | WEvent.post _ :: _ => false
  | _ :: rest => closedBeforeFirstPost rest

/-- Whether a `flush` occurs strictly before the first posted response. -/
def flushBeforeFirstPost : List WEvent → Bool
  | [] => false
  | WEvent.flushEv :: _ => true
  | WEvent.post _ :: _ => false
  | _ :: rest => flushBeforeFirstPost rest

/-- Exactly one of `result` / `error` is set (non-nullish) in a response. -/
def oneOfSet (r : Response) : Bool :=
  r.result.isSome != r.error.isSome

/-!
## The request correlator

`workerResponseHandler` maps a request id to the flat JS array
`[resolve1, reject1, resolve2, reject2, ...]` of the waiters' promise
continuations; `handleWorkerResponse` walks it two at a time.  We model a
continuation by which caller it settles and whether it is the resolve or
the reject half, the table by an association list with unique keys (a JS
object), and a settled promise by a `(caller, Outcome)` record.

The coordinator is single threaded; the only suspension points inside the
four public file operations are their `await this.getFileHandle(...)`
(worker responses arrive in later macrotasks).  Each operation therefore
splits into at most two atomic blocks, its synchronous prefix (a `call*`
step: everything up to that `await` — `getFileSize`/`readFile` run their
check and registration here) and its resumption (a `resume` step:
everything after it — `startWorker` for all four, plus, for
`truncateFile`/`writeFile` only, the registration of
`workerResponseHandler[id]`, which in the source is a plain overwriting
assignment).  A worker response is a `deliver` step running
`handleWorkerResponse`.
-/

/-- One stored promise continuation: the resolve or reject half of some
caller's promise. -/
inductive PCont
  | res (c : Nat)
  | rej (c : Nat)
deriving DecidableEq, Repr

/-- How a caller's promise ended up settled. -/
inductive Outcome
  | resolvedWith (v : Option Val)
  | rejectedWith (v : Option Val)
deriving DecidableEq, Repr

/-- Lookup in the `workerResponseHandler` object. -/
def lookupA (k : String) : List (String × List PCont) → Option (List PCont)
  | [] => none
  | (k2, v) :: rest => if k2 = k then some v else lookupA k rest

/-- Property assignment `workerResponseHandler[k] = v` (overwrites). -/
def setA (k : String) (v : List PCont) :
    List (String × List PCont) → List (String × List PCont)
  | [] => [(k, v)]
  | (k2, v2) :: rest =>
      if k2 = k then (k, v) :: rest else (k2, v2) :: setA k v rest

/-- `delete workerResponseHandler[k]`. -/
def eraseA (k : String) :
    List (String × List PCont) → List (String × List PCont)
  | [] => []
  | (k2, v2) :: rest => if k2 = k then rest else (k2, v2) :: eraseA k rest

/-- Invoking a stored continuation with a value settles its caller's
promise accordingly. -/
def invoke : PCont → Option Val → Nat × Outcome
  | PCont.res c, v => (c, Outcome.resolvedWith v)
  | PCont.rej c, v => (c, Outcome.rejectedWith v)

/-- The fan-out loop of `handleWorkerResponse` (lines 128-136): walk the
continuation array two at a time; on error invoke the reject half with the
error, otherwise the resolve half with the result.  (The table only ever
holds whole pairs, so the odd tail case is unreachable.) -/
def fanOut (r : Response) : List PCont → List (Nat × Outcome)
  | c1 :: c2 :: rest =>
      (match r.error with
        | some e => invoke c2 (some (Val.exn e))
        | none => invoke c1 r.result) :: fanOut r rest
  | _ => []

/-- The outcome `handleWorkerResponse` hands every registered waiter of a
response: the identical rejection with the error, or the identical
resolution with the result. -/
def deliveredOutcome (r : Response) : Outcome :=
  match r.error with
  | some e => Outcome.rejectedWith (some (Val.exn e))
  | none => Outcome.resolvedWith r.result

/-- Coordinator state: the `workerResponseHandler` table, callers whose
synchronous prefix ran and which are suspended on
`await this.getFileHandle(...)` (the `Bool` records whether their
resumption must also register the handler entry, i.e. whether the
operation is a mutating one), the command messages posted to workers in
order, the settled caller promises in order, and whether
`handleWorkerResponse` ever threw (`cb` undefined). -/
structure CoordState where
  workerResponseHandler : List (String × List PCont)
  pendingResume : List (Nat × Msg × Bool)
  dispatches : List Msg
  outcomes : List (Nat × Outcome)
  crashed : Bool
deriving DecidableEq, Repr

def CoordState.init : CoordState := ⟨[], [], [], [], false⟩

/-- Request id of `getFileSize` (line 444). -/
def sizeId (wd fn : String) : String := wd ++ "/" ++ fn ++ "_getSize"

/-- Request id of `readFile` (line 465): note it does not mention the
`at` offset. -/
def readId (wd fn : String) : String := wd ++ "/" ++ fn ++ "_read"

/-- Request id of `truncateFile` (line 487). -/
def truncId (wd fn : String) : String := wd ++ "/" ++ fn ++ "_truncate"

/-- Request id of `writeFile` (line 513). -/
def writeId (wd fn : String) : String := wd ++ "/" ++ fn ++ "_write"

/-- The message `getFileSize` posts: no `data`, no `option`. -/
def sizeMsg (wd fn : String) : Msg :=
  ⟨some (sizeId wd fn), some "getSize", none, none, true⟩

/-- The message `readFile` posts: the option object of the caller that
dispatched. -/
def readMsg (wd fn : String) (o : Option WOption) : Msg :=
  ⟨some (readId wd fn), some "read", none, o, true⟩

/-- The message `truncateFile` posts. -/
def truncMsg (wd fn : String) (o : Option WOption) : Msg :=
  ⟨some (truncId wd fn), some "truncate", none, o, true⟩

/-- The message `writeFile` posts (the `transfer` key, stripped from the
option before sending, is not modelled). -/
def writeMsg (wd fn : String) (d : List Nat) (o : Option WOption) : Msg :=
  ⟨some (writeId wd fn), some "write", some d, o, true⟩

/-- Synchronous prefix of `getFileSize`/`readFile`: if an entry exists,
push this caller's pair onto it (the caller never dispatches); otherwise
register the pair and suspend towards dispatch.  Check and registration
happen inside this one atomic block — the `await` comes after. -/
def shareableCall (c : Nat) (idv : String) (m : Msg) (st : CoordState) :
    CoordState :=
  match lookupA idv st.workerResponseHandler with
  | some ws =>
      { st with
          workerResponseHandler := (setA idv
            (ws ++ [PCont.res c, PCont.rej c]) st.workerResponseHandler) }
  | none =>
      { st with
          workerResponseHandler := (setA idv
            [PCont.res c, PCont.rej c] st.workerResponseHandler),
          pendingResume := st.pendingResume ++ [(c, m, false)] }

/-- Synchronous prefix of `truncateFile`/`writeFile`: if an entry exists,
reject immediately with the busy error (no enqueue, no dispatch);
otherwise suspend towards dispatch — registration only happens at
resumption, after the `await`. -/
def mutatingCall (c : Nat) (idv busy : String) (m : Msg) (st : CoordState) :
    CoordState :=
  match lookupA idv st.workerResponseHandler with
  | some _ =>
      { st with
          outcomes := (st.outcomes
            ++ [(c, Outcome.rejectedWith (some (Val.exn busy)))]) }
  | none => { st with pendingResume := st.pendingResume ++ [(c, m, true)] }

/-- Remove caller `c`'s suspended continuation, keeping the rest. -/
def takeResume (c : Nat) :
    List (Nat × Msg × Bool) → Option ((Msg × Bool) × List (Nat × Msg × Bool))
  | [] => none
  | (c2, m, mt) :: rest =>
      if c2 = c then some ((m, mt), rest)
      else
        match takeResume c rest with
        | some (x, rest2) => some (x, (c2, m, mt) :: rest2)
        | none => none

/-- One atomic step of the coordinator. -/
inductive CStep
  | callGetSize (c : Nat) (wd fn : String)
  | callRead (c : Nat) (wd fn : String) (o : Option WOption)
  | callTruncate (c : Nat) (wd fn : String) (o : Option WOption)
  | callWrite (c : Nat) (wd fn : String) (d : List Nat) (o : Option WOption)
  | resume (c : Nat)
  | deliver (r : Response)
deriving DecidableEq, Repr

/-- Coordinator transition function.  `resume c` is caller `c`'s code after
its `await this.getFileHandle(...)`: `startWorker(msg)` (the dispatch),
then — for the mutating operations only — the `new Promise` executor that
assigns `workerResponseHandler[id] = [resolve, reject]`, clobbering any
existing entry.  `deliver r` is `handleWorkerResponse(r)`: look the entry
up (a missing entry makes the JS throw on `cb.length`, recorded by
`crashed`), fan the one outcome out to every stored pair, delete the
entry. -/
def stepC : CStep → CoordState → CoordState
  | CStep.callGetSize c wd fn, st =>
      shareableCall c (sizeId wd fn) (sizeMsg wd fn) st
  | CStep.callRead c wd fn o, st =>
      shareableCall c (readId wd fn) (readMsg wd fn o) st
  | CStep.callTruncate c wd fn o, st =>
      mutatingCall c (truncId wd fn) "Truncate fail: File is writing."
        (truncMsg wd fn o) st
  | CStep.callWrite c wd fn d o, st =>
      mutatingCall c (writeId wd fn) "Write fail: File is writing."
        (writeMsg wd fn d o) st
  | CStep.resume c, st =>
      match takeResume c st.pendingResume with
      | none => st
      | some ((m, mt), rest) =>
          let st2 := { st with
            pendingResume := rest,
            dispatches := st.dispatches ++ [m] }
          if mt then
            { st2 with
                workerResponseHandler := (setA (m.id.getD "")
                  [PCont.res c, PCont.rej c] st2.workerResponseHandler) }
          else st2
  | CStep.deliver r, st =>
      match lookupA (r.id.getD "") st.workerResponseHandler with
      | none => { st with crashed := true }
      | some cb =>
          { st with
              outcomes := st.outcomes ++ fanOut r cb,
              workerResponseHandler := (eraseA (r.id.getD "")
                st.workerResponseHandler) }

/-- Run a list of coordinator steps. -/
def runC (tr : List CStep) (st : CoordState) : CoordState :=
  tr.foldl (fun s e => stepC e s) st

/-!
## The worker pool

`activeWorkers`/`idleWorkers` are JS arrays of workers; `idleWorkers` can
contain holes (`undefined` slots) because `clearIdleWorkers` assigns
`idleWorkers.length = 1`, which on a shorter (empty) array **grows** it
with a hole.  Workers are numbered by creation order; a hole is `none`.
-/

/-- Pool state: creation counter, the two queues, whether a reclamation
timeout is pending, and the workers terminated so far. -/
structure PoolState where
  nextId : Nat
  activeWorkers : List Nat
  idleWorkers : List (Option Nat)
  timerSet : Bool
  destroyed : List Nat
deriving DecidableEq, Repr

def PoolState.init : PoolState := ⟨0, [], [], false, []⟩

/-- Pool events: `startWorker` (a command is dispatched), the pool part of
a worker completion (`completeWork` followed by `clearIdleWorkers`, which
debounce-resets the timer), and the reclamation timeout firing after the
quiet period (10 s with no intervening completion). -/
inductive PStep
  | startW
  | completeW (w : Nat)
  | timerFire
deriving DecidableEq, Repr

/-- Pool transition function, mirroring lines 12-22 and 104-147:
`startW` pops the tail of `idleWorkers` and creates a new worker when the
pop yields nothing (an empty queue or a hole — both are `!worker`);
`completeW` splices the worker out of `activeWorkers`, pushes it onto
`idleWorkers`, and resets the timer; `timerFire` terminates every element
of `idleWorkers` past index 0 and then assigns `idleWorkers.length = 1`
(truncating, or growing an empty array by a hole). -/
def pstep : PStep → PoolState → PoolState
  | PStep.startW, st =>
      match st.idleWorkers.getLast? with
      | some (some w) =>
          { st with
              idleWorkers := st.idleWorkers.dropLast,
              activeWorkers := st.activeWorkers ++ [w] }
      | some none =>
          { st with
              idleWorkers := st.idleWorkers.dropLast,
              activeWorkers := st.activeWorkers ++ [st.nextId],
              nextId := st.nextId + 1 }
      | none =>
          { st with
              activeWorkers := st.activeWorkers ++ [st.nextId],
              nextId := st.nextId + 1 }
  | PStep.completeW w, st =>
      { st with
          activeWorkers := (if st.activeWorkers.contains w then
            st.activeWorkers.erase w else st.activeWorkers),
          idleWorkers := st.idleWorkers ++ [some w],
          timerSet := true }
  | PStep.timerFire, st =>
      if st.timerSet then
        { st with
            destroyed := (st.destroyed
              ++ (st.idleWorkers.drop 1).filterMap id),
            idleWorkers := (st.idleWorkers.take 1
              ++ List.replicate (1 - st.idleWorkers.length) none),
            timerSet := false }
      else st

/-- Run a list of pool events. -/
def runP (tr : List PStep) (st : PoolState) : PoolState :=
  tr.foldl (fun s e => pstep e s) st

/-- Workers that exist and are not terminated: the active ones plus the
non-hole idle slots. -/
def liveWorkers (st : PoolState) : List Nat :=
  st.activeWorkers ++ st.idleWorkers.filterMap id

/-!
## Helper lemmas
-/

lemma missingParams_false (i cmd : String) (hi : i ≠ "") (hc : cmd ≠ "")
    (d : Option (List Nat)) (o : Option WOption) :
    missingParams ⟨some i, some cmd, d, o, true⟩ = false := by
  simp [missingParams, falsyS, hi, hc]

lemma readId_ne_empty (wd fn : String) : readId wd fn ≠ "" := by
  intro h
  have h2 := congrArg String.data h
  simp [readId, String.data_append] at h2

lemma sizeId_ne_empty (wd fn : String) : sizeId wd fn ≠ "" := by
  intro h
  have h2 := congrArg String.data h
  simp [sizeId, String.data_append] at h2

lemma readBuf_all (file : List Nat) (k : Nat) :
    readBuf file k (file.length - k) = file.drop k := by
  have h1 : (file.drop k).take (file.length - k) = file.drop k := by
    apply List.take_of_length_le
    simp
  simp [readBuf, h1]

lemma truncateBytes_length (file : List Nat) (n : Nat) :
    (truncateBytes file n).length = n := by
  unfold truncateBytes
  split
  · simp
    omega
  · simp
    omega

/-!
## Worker executor claims
-/

/-- Claim C9: a command message missing any of `id`, `command` or
`fileHandle` makes the worker reply with a single Response whose `error`
is set and whose `result` is not set, without any exclusive-handle
acquisition being attempted and without touching the file. -/
theorem worker_missing_params_no_acquire (m : Msg) (b : Behavior)
    (file : List Nat) (h : missingParams m = true) :
    workerOnMessage m b file =
      ([WEvent.post ⟨m.id, none, some "missing id | command | fileHandle!"⟩],
        file)
    ∧ acquireCount (workerOnMessage m b file).1 = 0
    ∧ closeCount (workerOnMessage m b file).1 = 0 := by
  refine ⟨?_, ?_, ?_⟩ <;> simp [workerOnMessage, h, acquireCount, closeCount]

theorem worker_missing_params_no_acquire_witness :
    missingParams ⟨none, some "getSize", none, none, true⟩ = true
    ∧ (workerOnMessage ⟨none, some "getSize", none, none, true⟩ Behavior.ok [1]
        = ([WEvent.post ⟨none, none,
            some "missing id | command | fileHandle!"⟩], [1])
      ∧ acquireCount (workerOnMessage ⟨none, some "getSize", none, none, true⟩
          Behavior.ok [1]).1 = 0
      ∧ closeCount (workerOnMessage ⟨none, some "getSize", none, none, true⟩
          Behavior.ok [1]).1 = 0) :=
  ⟨rfl, worker_missing_params_no_acquire _ _ _ rfl⟩

/-- Claim C7: for a file of size `S` and `0 ≤ k ≤ S`, a read command with
`at = k` responds with a buffer of length `S - k` equal to the file's
trailing `S - k` bytes, and a read carrying no option behaves identically
to a read with `at = 0`. -/
theorem worker_read_offset_law (i : String) (hi : i ≠ "") (file : List Nat)
    (k : Nat) (hk : k ≤ file.length) :
    workerOnMessage ⟨some i, some "read", none, some ⟨some k, none, false⟩,
        true⟩ Behavior.ok file
      = ([WEvent.acquire,
          WEvent.post ⟨some i, some (Val.bytes (file.drop k)), none⟩,
          WEvent.close], file)
    ∧ (file.drop k).length = file.length - k
    ∧ workerOnMessage ⟨some i, some "read", none, none, true⟩ Behavior.ok file
        = workerOnMessage ⟨some i, some "read", none,
            some ⟨some 0, none, false⟩, true⟩ Behavior.ok file := by
  have hm : ∀ (o : Option WOption),
      missingParams ⟨some i, some "read", none, o, true⟩ = false :=
    fun o => missingParams_false i "read" hi (by decide) none o
  refine ⟨?_, by simp, ?_⟩
  · simp [workerOnMessage, hm, hk, readBuf_all]
  · simp [workerOnMessage, hm, emptyWOption]

theorem worker_read_offset_law_witness :
    ("/f_read" : String) ≠ "" ∧ (1 : Nat) ≤ ([7, 8, 9] : List Nat).length
    ∧ (workerOnMessage ⟨some "/f_read", some "read", none,
          some ⟨some 1, none, false⟩, true⟩ Behavior.ok [7, 8, 9]
        = ([WEvent.acquire,
            WEvent.post ⟨some "/f_read", some (Val.bytes [8, 9]), none⟩,
            WEvent.close], [7, 8, 9])
      ∧ (([7, 8, 9] : List Nat).drop 1).length = [7, 8, 9].length - 1
      ∧ workerOnMessage ⟨some "/f_read", some "read", none, none, true⟩
            Behavior.ok [7, 8, 9]
          = workerOnMessage ⟨some "/f_read", some "read", none,
              some ⟨some 0, none, false⟩, true⟩ Behavior.ok [7, 8, 9]) :=
  ⟨by decide, by decide,
    worker_read_offset_law "/f_read" (by decide) [7, 8, 9] 1 (by decide)⟩

/-- Claim C8: a truncate command with a valid size `T ≥ 0` resizes the
file to `T` bytes (so a subsequent getSize command reports `T`) and
responds with the applied size `T`; with the `size` option omitted or
negative the file is untouched and the applied size reported is `0`; and
with `flush: true` the flush happens before the response is posted. -/
theorem worker_truncate_semantics (i : String) (hi : i ≠ "")
    (file : List Nat) :
    (∀ (T : Nat) (ao : Option Nat) (fl : Bool),
      workerOnMessage ⟨some i, some "truncate", none,
          some ⟨ao, some (T : Int), fl⟩, true⟩ Behavior.ok file
        = ([WEvent.acquire] ++ (if fl then [WEvent.flushEv] else [])
            ++ [WEvent.post ⟨some i, some (Val.num T), none⟩, WEvent.close],
          truncateBytes file T)
      ∧ (truncateBytes file T).length = T
      ∧ (workerOnMessage ⟨some i, some "getSize", none, none, true⟩
            Behavior.ok (truncateBytes file T)).1
          = [WEvent.acquire, WEvent.post ⟨some i, some (Val.num T), none⟩,
              WEvent.close])
    ∧ (∀ (ao : Option Nat) (fl : Bool),
      workerOnMessage ⟨some i, some "truncate", none, some ⟨ao, none, fl⟩,
          true⟩ Behavior.ok file
        = ([WEvent.acquire,
            WEvent.post ⟨some i, some (Val.num 0), none⟩, WEvent.close],
          file))
    ∧ (∀ (s : Int), s < 0 → ∀ (ao : Option Nat) (fl : Bool),
      workerOnMessage ⟨some i, some "truncate", none, some ⟨ao, some s, fl⟩,
          true⟩ Behavior.ok file
        = ([WEvent.acquire,
            WEvent.post ⟨some i, some (Val.num 0), none⟩, WEvent.close],
          file))
    ∧ (∀ (T : Nat) (ao : Option Nat),
      flushBeforeFirstPost (workerOnMessage ⟨some i, some "truncate", none,
          some ⟨ao, some (T : Int), true⟩, true⟩ Behavior.ok file).1
        = true) := by
  have hm : ∀ (cmd : String), cmd ≠ "" → ∀ (o : Option WOption),
      missingParams ⟨some i, some cmd, none, o, true⟩ = false :=
    fun cmd hc o => missingParams_false i cmd hi hc none o
  refine ⟨?_, ?_, ?_, ?_⟩
  · intro T ao fl
    refine ⟨?_, truncateBytes_length file T, ?_⟩
    · simp [workerOnMessage, hm "truncate" (by decide)]
    · simp [workerOnMessage, hm "getSize" (by decide),
        truncateBytes_length file T]
  · intro ao fl
    simp [workerOnMessage, hm "truncate" (by decide)]
  · intro s hs ao fl
    simp [workerOnMessage, hm "truncate" (by decide), not_le.mpr hs]
  · intro T ao
    simp [workerOnMessage, hm "truncate" (by decide), flushBeforeFirstPost]

theorem worker_truncate_semantics_witness :
    ("/f_truncate" : String) ≠ ""
    ∧ (workerOnMessage ⟨some "/f_truncate", some "truncate", none,
          some ⟨none, some (6 : Int), true⟩, true⟩ Behavior.ok [10, 11, 12]
        = ([WEvent.acquire, WEvent.flushEv,
            WEvent.post ⟨some "/f_truncate", some (Val.num 6), none⟩,
            WEvent.close], [10, 11, 12, 0, 0, 0])
      ∧ workerOnMessage ⟨some "/f_truncate", some "truncate", none,
            some ⟨none, none, false⟩, true⟩ Behavior.ok [10, 11, 12]
          = ([WEvent.acquire,
              WEvent.post ⟨some "/f_truncate", some (Val.num 0), none⟩,
              WEvent.close], [10, 11, 12])
      ∧ workerOnMessage ⟨some "/f_truncate", some "truncate", none,
            some ⟨none, some (-2 : Int), false⟩, true⟩ Behavior.ok [10, 11, 12]
          = ([WEvent.acquire,
              WEvent.post ⟨some "/f_truncate", some (Val.num 0), none⟩,
              WEvent.close], [10, 11, 12])) := by
  have h := worker_truncate_semantics "/f_truncate" (by decide) [10, 11, 12]
  refine ⟨by decide, ?_, h.2.1 none false, h.2.2.1 (-2) (by decide) none false⟩
  have h2 := (h.1 6 none true).1
  simpa [truncateBytes] using h2

/-- Claim C3, counterexample: on a successful getSize command the worker's
handle close does NOT happen before the response is sent — exactly one
response and one close occur, but the close (the `finally` block) runs
after `respond` has already posted. -/
theorem worker_close_before_respond_cex :
    closedBeforeFirstPost (workerOnMessage ⟨some "/f_getSize",
        some "getSize", none, none, true⟩ Behavior.ok [1, 2, 3]).1 = false
    ∧ postCount (workerOnMessage ⟨some "/f_getSize", some "getSize", none,
        none, true⟩ Behavior.ok [1, 2, 3]).1 = 1
    ∧ closeCount (workerOnMessage ⟨some "/f_getSize", some "getSize", none,
        none, true⟩ Behavior.ok [1, 2, 3]).1 = 1 := by
  refine ⟨rfl, rfl, rfl⟩

/-- Claim C3, amended: for every command that passes validation and
acquires the exclusive synchronous handle (acquisition does not fail), the
handle is closed exactly once on every exit path — success, operation
error, or unexpected fault — and this close is the final action,
happening after (not before) any response message is sent. -/
theorem worker_close_exactly_once (m : Msg) (b : Behavior) (file : List Nat)
    (hv : missingParams m = false) (hb : ∀ e, b ≠ Behavior.acquireFail e) :
    closeCount (workerOnMessage m b file).1 = 1
    ∧ (workerOnMessage m b file).1.getLast? = some WEvent.close := by
  cases b with
  | acquireFail e => exact absurd rfl (hb e)
  | opFail e =>
      refine ⟨?_, ?_⟩ <;> simp [workerOnMessage, hv, closeCount]
  | ok =>
      unfold workerOnMessage
      rw [hv]
      simp only [Bool.false_eq_true, if_false]
      split <;>
        first
          | (refine ⟨rfl, rfl⟩)
          | (split <;>
              first
                | (refine ⟨rfl, rfl⟩)
                | (split <;> (try split) <;>
                    simp [closeCount, List.getLast?]))

theorem worker_close_exactly_once_witness :
    missingParams ⟨some "/f_read", some "read", none, none, true⟩ = false
    ∧ (∀ e, (Behavior.opFail "disk fault") ≠ Behavior.acquireFail e)
    ∧ (closeCount (workerOnMessage ⟨some "/f_read", some "read", none, none,
          true⟩ (Behavior.opFail "disk fault") [1]).1 = 1
      ∧ (workerOnMessage ⟨some "/f_read", some "read", none, none, true⟩
          (Behavior.opFail "disk fault") [1]).1.getLast?
          = some WEvent.close) :=
  ⟨rfl, fun _ h => Behavior.noConfusion h,
    worker_close_exactly_once _ _ _ rfl (fun _ h => Behavior.noConfusion h)⟩

/-- Claim C5, counterexample: a command message whose `command` names none
of the four known operations falls into the empty `default` branch of the
worker's switch — it acquires and closes the handle but sends NO response
at all, so "exactly one Response per processed command" fails. -/
theorem worker_unknown_command_silent_cex :
    postCount (workerOnMessage ⟨some "/f_foo", some "foo", none, none, true⟩
      Behavior.ok []).1 = 0
    ∧ workerOnMessage ⟨some "/f_foo", some "foo", none, none, true⟩
        Behavior.ok []
      = ([WEvent.acquire, WEvent.close], []) := ⟨rfl, rfl⟩

/-- Claim C5, amended: every command message that fails validation or
whose `command` is one of the four known operations (getSize, read,
truncate, write) ends with exactly one Response posted, and that Response
has exactly one of `result` / `error` set; a message with an unknown
command kind instead produces no Response at all. -/
theorem worker_exactly_one_response (m : Msg) (b : Behavior)
    (file : List Nat)
    (h : missingParams m = true ∨ m.command = some "getSize"
      ∨ m.command = some "read" ∨ m.command = some "truncate"
      ∨ m.command = some "write") :
    postCount (workerOnMessage m b file).1 = 1
    ∧ (postsOf (workerOnMessage m b file).1).all oneOfSet = true := by
  by_cases hv : missingParams m = true
  · refine ⟨?_, ?_⟩ <;>
      simp [workerOnMessage, hv, postCount, postsOf, oneOfSet]
  · have hv2 : missingParams m = false := by
      revert hv
      cases missingParams m <;> simp
    rcases h with h | h | h | h | h
    · exact absurd h hv
    all_goals (
      cases b with
      | acquireFail e =>
          refine ⟨?_, ?_⟩ <;>
            simp [workerOnMessage, hv2, postCount, postsOf, oneOfSet]
      | opFail e =>
          refine ⟨?_, ?_⟩ <;>
            simp [workerOnMessage, hv2, postCount, postsOf, oneOfSet]
      | ok =>
          unfold workerOnMessage
          rw [hv2, h]
          simp only [Bool.false_eq_true, if_false]
          refine ⟨?_, ?_⟩ <;>
            ((try split) <;> (try split) <;> (try split) <;>
              simp [postCount, postsOf, oneOfSet]))

theorem worker_exactly_one_response_witness :
    (missingParams ⟨some "/f_write", some "write", some [5], none, true⟩
        = true
      ∨ (⟨some "/f_write", some "write", some [5], none, true⟩ : Msg).command
        = some "getSize"
      ∨ (⟨some "/f_write", some "write", some [5], none, true⟩ : Msg).command
        = some "read"
      ∨ (⟨some "/f_write", some "write", some [5], none, true⟩ : Msg).command
        = some "truncate"
      ∨ (⟨some "/f_write", some "write", some [5], none, true⟩ : Msg).command
        = some "write")
    ∧ (postCount (workerOnMessage ⟨some "/f_write", some "write", some [5],
          none, true⟩ Behavior.ok [9]).1 = 1
      ∧ (postsOf (workerOnMessage ⟨some "/f_write", some "write", some [5],
          none, true⟩ Behavior.ok [9]).1).all oneOfSet = true) :=
  ⟨Or.inr (Or.inr (Or.inr (Or.inr rfl))),
    worker_exactly_one_response _ _ _
      (Or.inr (Or.inr (Or.inr (Or.inr rfl))))⟩

/-!
## Request correlator claims
-/

/-- The continuation pairs a list of callers pushes, in order
(`push(resolve, reject)` per caller). -/
def pairsOf : List Nat → List PCont
  | [] => []
  | c :: cs => PCont.res c :: PCont.rej c :: pairsOf cs

lemma fanOut_pair_cons (r : Response) (c : Nat) (rest : List PCont) :
    fanOut r (PCont.res c :: PCont.rej c :: rest)
      = (c, deliveredOutcome r) :: fanOut r rest := by
  cases hr : r.error <;> simp [fanOut, invoke, deliveredOutcome, hr]

lemma fanOut_pairsOf (r : Response) (cs : List Nat) :
    fanOut r (pairsOf cs) = cs.map (fun c => (c, deliveredOutcome r)) := by
  induction cs with
  | nil => rfl
  | cons c cs ih => rw [pairsOf, fanOut_pair_cons, ih, List.map_cons]

lemma fanOut_single (r : Response) (c : Nat) :
    fanOut r [PCont.res c, PCont.rej c] = [(c, deliveredOutcome r)] := by
  have h := fanOut_pair_cons r c []
  simpa [fanOut] using h

lemma runC_cons (s : CStep) (tr : List CStep) (st : CoordState) :
    runC (s :: tr) st = runC tr (stepC s st) := rfl

lemma runC_append (t1 t2 : List CStep) (st : CoordState) :
    runC (t1 ++ t2) st = runC t2 (runC t1 st) := by
  simp [runC, List.foldl_append]

/-- While an entry for `idv` exists as the only entry, every further
shareable call for `idv` only appends that caller's continuation pair:
no dispatch, no new entry, nothing else changes. -/
lemma foldl_shareableCall {α : Type} (idv : String) (cf : α → Nat)
    (mf : α → Msg) (xs : List α) (ws : List PCont)
    (p : List (Nat × Msg × Bool)) (d : List Msg)
    (o : List (Nat × Outcome)) (cr : Bool) :
    List.foldl (fun s x => shareableCall (cf x) idv (mf x) s)
      ⟨[(idv, ws)], p, d, o, cr⟩ xs
    = ⟨[(idv, ws ++ pairsOf (xs.map cf))], p, d, o, cr⟩ := by
  induction xs generalizing ws with
  | nil => simp [pairsOf]
  | cons x xs ih =>
      rw [List.foldl_cons]
      have h1 : shareableCall (cf x) idv (mf x) ⟨[(idv, ws)], p, d, o, cr⟩
          = ⟨[(idv, ws ++ [PCont.res (cf x), PCont.rej (cf x)])],
              p, d, o, cr⟩ := by
        simp [shareableCall, lookupA, setA]
      rw [h1, ih]
      simp [pairsOf]

/-- Claim C1: for every K ≥ 1 (a first caller `c` and further callers
`cs`), issuing K concurrent getSize — and likewise K concurrent read —
calls for the same file while none has completed dispatches exactly one
worker execution; when its response `r` arrives, all K callers receive the
identical outcome (the identical result value, or, on failure, the
identical error), and the pending entry is removed.  For read, the later
callers' option objects play no role. -/
theorem getFileSize_readFile_coalescing (c : Nat) (cs : List Nat)
    (wd fn : String) (r : Response) (hid : r.id = some (sizeId wd fn))
    (o : Option WOption) (cs2 : List (Nat × Option WOption)) (r2 : Response)
    (hid2 : r2.id = some (readId wd fn)) :
    (runC (CStep.callGetSize c wd fn
          :: cs.map (fun k => CStep.callGetSize k wd fn)
          ++ [CStep.resume c, CStep.deliver r]) CoordState.init
      = ⟨[], [], [sizeMsg wd fn],
          (c :: cs).map (fun k => (k, deliveredOutcome r)), false⟩)
    ∧ (runC (CStep.callRead c wd fn o
          :: cs2.map (fun x => CStep.callRead x.1 wd fn x.2)
          ++ [CStep.resume c, CStep.deliver r2]) CoordState.init
      = ⟨[], [], [readMsg wd fn o],
          (c :: cs2.map Prod.fst).map (fun k => (k, deliveredOutcome r2)),
          false⟩) := by
  constructor
  · rw [runC_append]
    have h1 : stepC (CStep.callGetSize c wd fn) CoordState.init
        = ⟨[(sizeId wd fn, [PCont.res c, PCont.rej c])],
            [(c, sizeMsg wd fn, false)], [], [], false⟩ := by
      simp [stepC, shareableCall, CoordState.init, lookupA, setA]
    have h2 : runC (cs.map (fun k => CStep.callGetSize k wd fn))
        ⟨[(sizeId wd fn, [PCont.res c, PCont.rej c])],
          [(c, sizeMsg wd fn, false)], [], [], false⟩
        = ⟨[(sizeId wd fn, [PCont.res c, PCont.rej c] ++ pairsOf cs)],
            [(c, sizeMsg wd fn, false)], [], [], false⟩ := by
      rw [runC, List.foldl_map]
      have h5 := foldl_shareableCall (sizeId wd fn) (fun k : Nat => k)
        (fun _ => sizeMsg wd fn) cs [PCont.res c, PCont.rej c]
        [(c, sizeMsg wd fn, false)] [] [] false
      simpa using h5
    have hpre : runC (CStep.callGetSize c wd fn
          :: cs.map (fun k => CStep.callGetSize k wd fn)) CoordState.init
        = ⟨[(sizeId wd fn, [PCont.res c, PCont.rej c] ++ pairsOf cs)],
            [(c, sizeMsg wd fn, false)], [], [], false⟩ := by
      rw [runC_cons, h1, h2]
    rw [hpre, runC_cons]
    have h3 : stepC (CStep.resume c)
        ⟨[(sizeId wd fn, [PCont.res c, PCont.rej c] ++ pairsOf cs)],
          [(c, sizeMsg wd fn, false)], [], [], false⟩
        = ⟨[(sizeId wd fn, [PCont.res c, PCont.rej c] ++ pairsOf cs)],
            [], [sizeMsg wd fn], [], false⟩ := by
      simp [stepC, takeResume]
    rw [h3, runC_cons]
    have h4 : stepC (CStep.deliver r)
        ⟨[(sizeId wd fn, [PCont.res c, PCont.rej c] ++ pairsOf cs)],
          [], [sizeMsg wd fn], [], false⟩
        = ⟨[], [], [sizeMsg wd fn],
            (c :: cs).map (fun k => (k, deliveredOutcome r)), false⟩ := by
      simp [stepC, hid, lookupA, eraseA, List.cons_append,
        fanOut_pair_cons, fanOut_pairsOf]
    rw [h4]
    rfl
  · rw [runC_append]
    have h1 : stepC (CStep.callRead c wd fn o) CoordState.init
        = ⟨[(readId wd fn, [PCont.res c, PCont.rej c])],
            [(c, readMsg wd fn o, false)], [], [], false⟩ := by
      simp [stepC, shareableCall, CoordState.init, lookupA, setA]
    have h2 : runC (cs2.map (fun x => CStep.callRead x.1 wd fn x.2))
        ⟨[(readId wd fn, [PCont.res c, PCont.rej c])],
          [(c, readMsg wd fn o, false)], [], [], false⟩
        = ⟨[(readId wd fn,
              [PCont.res c, PCont.rej c] ++ pairsOf (cs2.map Prod.fst))],
            [(c, readMsg wd fn o, false)], [], [], false⟩ := by
      rw [runC, List.foldl_map]
      have h5 := foldl_shareableCall (readId wd fn) Prod.fst
        (fun x : Nat × Option WOption => readMsg wd fn x.2) cs2
        [PCont.res c, PCont.rej c] [(c, readMsg wd fn o, false)] [] [] false
      exact h5
    have hpre : runC (CStep.callRead c wd fn o
          :: cs2.map (fun x => CStep.callRead x.1 wd fn x.2)) CoordState.init
        = ⟨[(readId wd fn,
              [PCont.res c, PCont.rej c] ++ pairsOf (cs2.map Prod.fst))],
            [(c, readMsg wd fn o, false)], [], [], false⟩ := by
      rw [runC_cons, h1, h2]
    rw [hpre, runC_cons]
    have h3 : stepC (CStep.resume c)
        ⟨[(readId wd fn,
            [PCont.res c, PCont.rej c] ++ pairsOf (cs2.map Prod.fst))],
          [(c, readMsg wd fn o, false)], [], [], false⟩
        = ⟨[(readId wd fn,
              [PCont.res c, PCont.rej c] ++ pairsOf (cs2.map Prod.fst))],
            [], [readMsg wd fn o], [], false⟩ := by
      simp [stepC, takeResume]
    rw [h3, runC_cons]
    have h4 : stepC (CStep.deliver r2)
        ⟨[(readId wd fn,
            [PCont.res c, PCont.rej c] ++ pairsOf (cs2.map Prod.fst))],
          [], [readMsg wd fn o], [], false⟩
        = ⟨[], [], [readMsg wd fn o],
            (c :: cs2.map Prod.fst).map (fun k => (k, deliveredOutcome r2)),
            false⟩ := by
      simp [stepC, hid2, lookupA, eraseA, List.cons_append,
        fanOut_pair_cons, fanOut_pairsOf]
    rw [h4]
    rfl

theorem getFileSize_readFile_coalescing_witness :
    (⟨some (sizeId "" "a"), some (Val.num 5), none⟩ : Response).id
        = some (sizeId "" "a")
    ∧ (⟨some (readId "" "a"), none, some "boom"⟩ : Response).id
        = some (readId "" "a")
    ∧ ((runC (CStep.callGetSize 1 "" "a"
          :: ([2] : List Nat).map (fun k => CStep.callGetSize k "" "a")
          ++ [CStep.resume 1, CStep.deliver
                ⟨some (sizeId "" "a"), some (Val.num 5), none⟩])
          CoordState.init
        = ⟨[], [], [sizeMsg "" "a"],
            ((1 : Nat) :: [2]).map (fun k => (k, deliveredOutcome
              ⟨some (sizeId "" "a"), some (Val.num 5), none⟩)), false⟩)
      ∧ (runC (CStep.callRead 1 "" "a" none
          :: ([(2, some ⟨some 3, none, false⟩)]
              : List (Nat × Option WOption)).map
              (fun x => CStep.callRead x.1 "" "a" x.2)
          ++ [CStep.resume 1, CStep.deliver
                ⟨some (readId "" "a"), none, some "boom"⟩])
          CoordState.init
        = ⟨[], [], [readMsg "" "a" none],
            ((1 : Nat) :: ([(2, some ⟨some 3, none, false⟩)]
                : List (Nat × Option WOption)).map Prod.fst).map
              (fun k => (k, deliveredOutcome
                ⟨some (readId "" "a"), none, some "boom"⟩)), false⟩)) :=
  ⟨rfl, rfl,
    getFileSize_readFile_coalescing 1 [2] "" "a"
      ⟨some (sizeId "" "a"), some (Val.num 5), none⟩ rfl
      none [(2, some ⟨some 3, none, false⟩)]
      ⟨some (readId "" "a"), none, some "boom"⟩ rfl⟩

/-- Claim C2, counterexample: a write issued while a truncate for the
same file is in flight is NOT rejected with Busy — the truncate and write
identities differ (`..._truncate` vs `..._write`), so the write passes its
check and dispatches a second concurrent execution, and no caller is
rejected. -/
theorem write_during_truncate_not_busy_cex :
    (runC [CStep.callTruncate 1 "" "f" none, CStep.resume 1,
        CStep.callWrite 2 "" "f" [7] none, CStep.resume 2]
        CoordState.init).outcomes = []
    ∧ (runC [CStep.callTruncate 1 "" "f" none, CStep.resume 1,
        CStep.callWrite 2 "" "f" [7] none, CStep.resume 2]
        CoordState.init).dispatches
      = [truncMsg "" "f" none, writeMsg "" "f" [7] none] := ⟨rfl, rfl⟩

/-- Claim C2, amended: a write issued while a prior write for the same
file is in flight (dispatched and registered, not yet completed) fails
immediately with the Busy error — settled before the first completes, not
enqueued, and no second execution is dispatched; a further write issued
after the first completes is dispatched and settled by its own execution.
(A write issued while only a truncate is in flight is not rejected: the
two operation classes have distinct identities.) -/
theorem writeFile_busy_on_inflight_write (c1 c2 c3 : Nat) (wd fn : String)
    (d1 d2 d3 : List Nat) (o1 o2 o3 : Option WOption) (r1 r3 : Response)
    (h1 : r1.id = some (writeId wd fn))
    (h3 : r3.id = some (writeId wd fn)) :
    (runC [CStep.callWrite c1 wd fn d1 o1, CStep.resume c1,
        CStep.callWrite c2 wd fn d2 o2] CoordState.init
      = ⟨[(writeId wd fn, [PCont.res c1, PCont.rej c1])], [],
          [writeMsg wd fn d1 o1],
          [(c2, Outcome.rejectedWith
            (some (Val.exn "Write fail: File is writing.")))], false⟩)
    ∧ (runC [CStep.callWrite c1 wd fn d1 o1, CStep.resume c1,
        CStep.callWrite c2 wd fn d2 o2, CStep.deliver r1,
        CStep.callWrite c3 wd fn d3 o3, CStep.resume c3, CStep.deliver r3]
        CoordState.init
      = ⟨[], [], [writeMsg wd fn d1 o1, writeMsg wd fn d3 o3],
          [(c2, Outcome.rejectedWith
              (some (Val.exn "Write fail: File is writing."))),
            (c1, deliveredOutcome r1), (c3, deliveredOutcome r3)],
          false⟩) := by
  have hA : stepC (CStep.callWrite c1 wd fn d1 o1) CoordState.init
      = ⟨[], [(c1, writeMsg wd fn d1 o1, true)], [], [], false⟩ := by
    simp [stepC, mutatingCall, CoordState.init, lookupA]
  have hB : stepC (CStep.resume c1)
      ⟨[], [(c1, writeMsg wd fn d1 o1, true)], [], [], false⟩
      = ⟨[(writeId wd fn, [PCont.res c1, PCont.rej c1])], [],
          [writeMsg wd fn d1 o1], [], false⟩ := by
    simp [stepC, takeResume, setA, writeMsg]
  have hC : stepC (CStep.callWrite c2 wd fn d2 o2)
      ⟨[(writeId wd fn, [PCont.res c1, PCont.rej c1])], [],
        [writeMsg wd fn d1 o1], [], false⟩
      = ⟨[(writeId wd fn, [PCont.res c1, PCont.rej c1])], [],
          [writeMsg wd fn d1 o1],
          [(c2, Outcome.rejectedWith
            (some (Val.exn "Write fail: File is writing.")))], false⟩ := by
    simp [stepC, mutatingCall, lookupA]
  have hD : stepC (CStep.deliver r1)
      ⟨[(writeId wd fn, [PCont.res c1, PCont.rej c1])], [],
        [writeMsg wd fn d1 o1],
        [(c2, Outcome.rejectedWith
          (some (Val.exn "Write fail: File is writing.")))], false⟩
      = ⟨[], [], [writeMsg wd fn d1 o1],
          [(c2, Outcome.rejectedWith
              (some (Val.exn "Write fail: File is writing."))),
            (c1, deliveredOutcome r1)], false⟩ := by
    simp [stepC, h1, lookupA, eraseA, fanOut_single]
  have hE : stepC (CStep.callWrite c3 wd fn d3 o3)
      ⟨[], [], [writeMsg wd fn d1 o1],
        [(c2, Outcome.rejectedWith
            (some (Val.exn "Write fail: File is writing."))),
          (c1, deliveredOutcome r1)], false⟩
      = ⟨[], [(c3, writeMsg wd fn d3 o3, true)], [writeMsg wd fn d1 o1],
          [(c2, Outcome.rejectedWith
              (some (Val.exn "Write fail: File is writing."))),
            (c1, deliveredOutcome r1)], false⟩ := by
    simp [stepC, mutatingCall, lookupA]
  have hF : stepC (CStep.resume c3)
      ⟨[], [(c3, writeMsg wd fn d3 o3, true)], [writeMsg wd fn d1 o1],
        [(c2, Outcome.rejectedWith
            (some (Val.exn "Write fail: File is writing."))),
          (c1, deliveredOutcome r1)], false⟩
      = ⟨[(writeId wd fn, [PCont.res c3, PCont.rej c3])], [],
          [writeMsg wd fn d1 o1, writeMsg wd fn d3 o3],
          [(c2, Outcome.rejectedWith
              (some (Val.exn "Write fail: File is writing."))),
            (c1, deliveredOutcome r1)], false⟩ := by
    simp [stepC, takeResume, setA, writeMsg]
  have hG : stepC (CStep.deliver r3)
      ⟨[(writeId wd fn, [PCont.res c3, PCont.rej c3])], [],
        [writeMsg wd fn d1 o1, writeMsg wd fn d3 o3],
        [(c2, Outcome.rejectedWith
            (some (Val.exn "Write fail: File is writing."))),
          (c1, deliveredOutcome r1)], false⟩
      = ⟨[], [], [writeMsg wd fn d1 o1, writeMsg wd fn d3 o3],
          [(c2, Outcome.rejectedWith
              (some (Val.exn "Write fail: File is writing."))),
            (c1, deliveredOutcome r1), (c3, deliveredOutcome r3)],
          false⟩ := by
    simp [stepC, h3, lookupA, eraseA, fanOut_single]
  constructor
  · rw [runC_cons, hA, runC_cons, hB, runC_cons, hC]
    rfl
  · rw [runC_cons, hA, runC_cons, hB, runC_cons, hC, runC_cons, hD,
      runC_cons, hE, runC_cons, hF, runC_cons, hG]
    rfl

theorem writeFile_busy_on_inflight_write_witness :
    (⟨some (writeId "" "f"), some (Val.num 1), none⟩ : Response).id
        = some (writeId "" "f")
    ∧ (⟨some (writeId "" "f"), some (Val.num 2), none⟩ : Response).id
        = some (writeId "" "f")
    ∧ ((runC [CStep.callWrite 1 "" "f" [4] none, CStep.resume 1,
          CStep.callWrite 2 "" "f" [5] none] CoordState.init
        = ⟨[(writeId "" "f", [PCont.res 1, PCont.rej 1])], [],
            [writeMsg "" "f" [4] none],
            [(2, Outcome.rejectedWith
              (some (Val.exn "Write fail: File is writing.")))], false⟩)
      ∧ (runC [CStep.callWrite 1 "" "f" [4] none, CStep.resume 1,
          CStep.callWrite 2 "" "f" [5] none,
          CStep.deliver ⟨some (writeId "" "f"), some (Val.num 1), none⟩,
          CStep.callWrite 3 "" "f" [6] none, CStep.resume 3,
          CStep.deliver ⟨some (writeId "" "f"), some (Val.num 2), none⟩]
          CoordState.init
        = ⟨[], [], [writeMsg "" "f" [4] none, writeMsg "" "f" [6] none],
            [(2, Outcome.rejectedWith
                (some (Val.exn "Write fail: File is writing."))),
              (1, deliveredOutcome
                ⟨some (writeId "" "f"), some (Val.num 1), none⟩),
              (3, deliveredOutcome
                ⟨some (writeId "" "f"), some (Val.num 2), none⟩)],
            false⟩)) :=
  ⟨rfl, rfl,
    writeFile_busy_on_inflight_write 1 2 3 "" "f" [4] [5] [6] none none none
      ⟨some (writeId "" "f"), some (Val.num 1), none⟩
      ⟨some (writeId "" "f"), some (Val.num 2), none⟩ rfl rfl⟩

/-- Claim C4, counterexample: two concurrent writeFile calls with the same
request identity, both issued before either resumes from its
`await this.getFileHandle(...)`, BOTH observe the pending entry as absent
and BOTH dispatch an execution — the check-then-act is not atomic for the
mutating operations, because that `await` sits between the check (line
514) and the registration (lines 530-532). -/
theorem write_check_then_act_not_atomic_cex :
    (runC [CStep.callWrite 1 "" "f" [1] none,
        CStep.callWrite 2 "" "f" [2] none,
        CStep.resume 1, CStep.resume 2] CoordState.init).dispatches
      = [writeMsg "" "f" [1] none, writeMsg "" "f" [2] none]
    ∧ (runC [CStep.callWrite 1 "" "f" [1] none,
        CStep.callWrite 2 "" "f" [2] none,
        CStep.resume 1, CStep.resume 2] CoordState.init).outcomes
      = [] := ⟨rfl, rfl⟩

/-- Claim C4, amended: for the shareable operations (getSize, read) the
existence check and the registration of the pending entry sit in one
synchronous block before the `await`, so two concurrent same-identity
callers dispatch exactly one execution; for the mutating operations
(write, truncate) the `await this.getFileHandle(...)` separates the check
from the registration, so two concurrent same-identity callers can both
observe the entry as absent and both dispatch, the second registration
overwriting the first. -/
theorem check_then_act_atomicity (c1 c2 : Nat) (wd fn : String)
    (d1 d2 : List Nat) (o1 o2 or1 or2 ot1 ot2 : Option WOption) :
    (runC [CStep.callGetSize c1 wd fn, CStep.callGetSize c2 wd fn,
        CStep.resume c1, CStep.resume c2] CoordState.init).dispatches
      = [sizeMsg wd fn]
    ∧ (runC [CStep.callRead c1 wd fn or1, CStep.callRead c2 wd fn or2,
        CStep.resume c1, CStep.resume c2] CoordState.init).dispatches
      = [readMsg wd fn or1]
    ∧ (runC [CStep.callWrite c1 wd fn d1 o1, CStep.callWrite c2 wd fn d2 o2,
        CStep.resume c1, CStep.resume c2] CoordState.init).dispatches
      = [writeMsg wd fn d1 o1, writeMsg wd fn d2 o2]
    ∧ (runC [CStep.callWrite c1 wd fn d1 o1, CStep.callWrite c2 wd fn d2 o2,
        CStep.resume c1, CStep.resume c2]
        CoordState.init).workerResponseHandler
      = [(writeId wd fn, [PCont.res c2, PCont.rej c2])]
    ∧ (runC [CStep.callTruncate c1 wd fn ot1, CStep.callTruncate c2 wd fn ot2,
        CStep.resume c1, CStep.resume c2] CoordState.init).dispatches
      = [truncMsg wd fn ot1, truncMsg wd fn ot2]
    ∧ (runC [CStep.callTruncate c1 wd fn ot1, CStep.callTruncate c2 wd fn ot2,
        CStep.resume c1, CStep.resume c2]
        CoordState.init).workerResponseHandler
      = [(truncId wd fn, [PCont.res c2, PCont.rej c2])] := by
  have hs1 : stepC (CStep.callGetSize c1 wd fn) CoordState.init
      = ⟨[(sizeId wd fn, [PCont.res c1, PCont.rej c1])],
          [(c1, sizeMsg wd fn, false)], [], [], false⟩ := by
    simp [stepC, shareableCall, CoordState.init, lookupA, setA]
  have hs2 : stepC (CStep.callGetSize c2 wd fn)
      ⟨[(sizeId wd fn, [PCont.res c1, PCont.rej c1])],
        [(c1, sizeMsg wd fn, false)], [], [], false⟩
      = ⟨[(sizeId wd fn, [PCont.res c1, PCont.rej c1, PCont.res c2,
            PCont.rej c2])], [(c1, sizeMsg wd fn, false)], [], [], false⟩ := by
    simp [stepC, shareableCall, lookupA, setA]
  have hs3 : stepC (CStep.resume c1)
      ⟨[(sizeId wd fn, [PCont.res c1, PCont.rej c1, PCont.res c2,
          PCont.rej c2])], [(c1, sizeMsg wd fn, false)], [], [], false⟩
      = ⟨[(sizeId wd fn, [PCont.res c1, PCont.rej c1, PCont.res c2,
            PCont.rej c2])], [], [sizeMsg wd fn], [], false⟩ := by
    simp [stepC, takeResume]
  have hs4 : stepC (CStep.resume c2)
      ⟨[(sizeId wd fn, [PCont.res c1, PCont.rej c1, PCont.res c2,
          PCont.rej c2])], [], [sizeMsg wd fn], [], false⟩
      = ⟨[(sizeId wd fn, [PCont.res c1, PCont.rej c1, PCont.res c2,
            PCont.rej c2])], [], [sizeMsg wd fn], [], false⟩ := by
    simp [stepC, takeResume]
  have hr1 : stepC (CStep.callRead c1 wd fn or1) CoordState.init
      = ⟨[(readId wd fn, [PCont.res c1, PCont.rej c1])],
          [(c1, readMsg wd fn or1, false)], [], [], false⟩ := by
    simp [stepC, shareableCall, CoordState.init, lookupA, setA]
  have hr2 : stepC (CStep.callRead c2 wd fn or2)
      ⟨[(readId wd fn, [PCont.res c1, PCont.rej c1])],
        [(c1, readMsg wd fn or1, false)], [], [], false⟩
      = ⟨[(readId wd fn, [PCont.res c1, PCont.rej c1, PCont.res c2,
            PCont.rej c2])], [(c1, readMsg wd fn or1, false)], [], [],
          false⟩ := by
    simp [stepC, shareableCall, lookupA, setA]
  have hr3 : stepC (CStep.resume c1)
      ⟨[(readId wd fn, [PCont.res c1, PCont.rej c1, PCont.res c2,
          PCont.rej c2])], [(c1, readMsg wd fn or1, false)], [], [], false⟩
      = ⟨[(readId wd fn, [PCont.res c1, PCont.rej c1, PCont.res c2,
            PCont.rej c2])], [], [readMsg wd fn or1], [], false⟩ := by
    simp [stepC, takeResume]
  have hr4 : stepC (CStep.resume c2)
      ⟨[(readId wd fn, [PCont.res c1, PCont.rej c1, PCont.res c2,
          PCont.rej c2])], [], [readMsg wd fn or1], [], false⟩
      = ⟨[(readId wd fn, [PCont.res c1, PCont.rej c1, PCont.res c2,
            PCont.rej c2])], [], [readMsg wd fn or1], [], false⟩ := by
    simp [stepC, takeResume]
  have hw1 : stepC (CStep.callWrite c1 wd fn d1 o1) CoordState.init
      = ⟨[], [(c1, writeMsg wd fn d1 o1, true)], [], [], false⟩ := by
    simp [stepC, mutatingCall, CoordState.init, lookupA]
  have hw2 : stepC (CStep.callWrite c2 wd fn d2 o2)
      ⟨[], [(c1, writeMsg wd fn d1 o1, true)], [], [], false⟩
      = ⟨[], [(c1, writeMsg wd fn d1 o1, true),
          (c2, writeMsg wd fn d2 o2, true)], [], [], false⟩ := by
    simp [stepC, mutatingCall, lookupA]
  have hw3 : stepC (CStep.resume c1)
      ⟨[], [(c1, writeMsg wd fn d1 o1, true),
        (c2, writeMsg wd fn d2 o2, true)], [], [], false⟩
      = ⟨[(writeId wd fn, [PCont.res c1, PCont.rej c1])],
          [(c2, writeMsg wd fn d2 o2, true)],
          [writeMsg wd fn d1 o1], [], false⟩ := by
    simp [stepC, takeResume, setA, writeMsg]
  have hw4 : stepC (CStep.resume c2)
      ⟨[(writeId wd fn, [PCont.res c1, PCont.rej c1])],
        [(c2, writeMsg wd fn d2 o2, true)],
        [writeMsg wd fn d1 o1], [], false⟩
      = ⟨[(writeId wd fn, [PCont.res c2, PCont.rej c2])], [],
          [writeMsg wd fn d1 o1, writeMsg wd fn d2 o2], [], false⟩ := by
    simp [stepC, takeResume, setA, writeMsg]
  have ht1 : stepC (CStep.callTruncate c1 wd fn ot1) CoordState.init
      = ⟨[], [(c1, truncMsg wd fn ot1, true)], [], [], false⟩ := by
    simp [stepC, mutatingCall, CoordState.init, lookupA]
  have ht2 : stepC (CStep.callTruncate c2 wd fn ot2)
      ⟨[], [(c1, truncMsg wd fn ot1, true)], [], [], false⟩
      = ⟨[], [(c1, truncMsg wd fn ot1, true),
          (c2, truncMsg wd fn ot2, true)], [], [], false⟩ := by
    simp [stepC, mutatingCall, lookupA]
  have ht3 : stepC (CStep.resume c1)
      ⟨[], [(c1, truncMsg wd fn ot1, true),
        (c2, truncMsg wd fn ot2, true)], [], [], false⟩
      = ⟨[(truncId wd fn, [PCont.res c1, PCont.rej c1])],
          [(c2, truncMsg wd fn ot2, true)],
          [truncMsg wd fn ot1], [], false⟩ := by
    simp [stepC, takeResume, setA, truncMsg]
  have ht4 : stepC (CStep.resume c2)
      ⟨[(truncId wd fn, [PCont.res c1, PCont.rej c1])],
        [(c2, truncMsg wd fn ot2, true)],
        [truncMsg wd fn ot1], [], false⟩
      = ⟨[(truncId wd fn, [PCont.res c2, PCont.rej c2])], [],
          [truncMsg wd fn ot1, truncMsg wd fn ot2], [], false⟩ := by
    simp [stepC, takeResume, setA, truncMsg]
  refine ⟨?_, ?_, ?_, ?_, ?_, ?_⟩
  · rw [runC_cons, hs1, runC_cons, hs2, runC_cons, hs3, runC_cons, hs4]
    rfl
  · rw [runC_cons, hr1, runC_cons, hr2, runC_cons, hr3, runC_cons, hr4]
    rfl
  · rw [runC_cons, hw1, runC_cons, hw2, runC_cons, hw3, runC_cons, hw4]
    rfl
  · rw [runC_cons, hw1, runC_cons, hw2, runC_cons, hw3, runC_cons, hw4]
    rfl
  · rw [runC_cons, ht1, runC_cons, ht2, runC_cons, ht3, runC_cons, ht4]
    rfl
  · rw [runC_cons, ht1, runC_cons, ht2, runC_cons, ht3, runC_cons, ht4]
    rfl

/-- Claim C10: readFile requests coalesce under the identity
(working directory, file name, "read"), which excludes the `at` offset: a
readFile with `at = k2` issued while one with `at = k1` for the same file
is in flight is appended as a waiter (no second dispatch; the one
dispatched message carries `k1` only), and when the worker answers that
message both callers resolve with the buffer computed from offset `k1`,
the second caller's `k2` being discarded. -/
theorem readFile_identity_excludes_offset (c1 c2 k1 k2 : Nat)
    (wd fn : String) (file : List Nat) (hk : k1 ≤ file.length) :
    (runC [CStep.callRead c1 wd fn (some ⟨some k1, none, false⟩),
        CStep.callRead c2 wd fn (some ⟨some k2, none, false⟩),
        CStep.resume c1] CoordState.init).dispatches
      = [readMsg wd fn (some ⟨some k1, none, false⟩)]
    ∧ (workerOnMessage (readMsg wd fn (some ⟨some k1, none, false⟩))
        Behavior.ok file).1
      = [WEvent.acquire,
          WEvent.post ⟨some (readId wd fn),
            some (Val.bytes (file.drop k1)), none⟩,
          WEvent.close]
    ∧ (runC [CStep.callRead c1 wd fn (some ⟨some k1, none, false⟩),
        CStep.callRead c2 wd fn (some ⟨some k2, none, false⟩),
        CStep.resume c1,
        CStep.deliver ⟨some (readId wd fn),
          some (Val.bytes (file.drop k1)), none⟩]
        CoordState.init).outcomes
      = [(c1, Outcome.resolvedWith (some (Val.bytes (file.drop k1)))),
          (c2, Outcome.resolvedWith (some (Val.bytes (file.drop k1))))]
    ∧ lookupA (readId wd fn)
        (runC [CStep.callRead c1 wd fn (some ⟨some k1, none, false⟩),
          CStep.callRead c2 wd fn (some ⟨some k2, none, false⟩),
          CStep.resume c1,
          CStep.deliver ⟨some (readId wd fn),
            some (Val.bytes (file.drop k1)), none⟩]
          CoordState.init).workerResponseHandler
      = none := by
  have hr1 : stepC (CStep.callRead c1 wd fn (some ⟨some k1, none, false⟩))
      CoordState.init
      = ⟨[(readId wd fn, [PCont.res c1, PCont.rej c1])],
          [(c1, readMsg wd fn (some ⟨some k1, none, false⟩), false)],
          [], [], false⟩ := by
    simp [stepC, shareableCall, CoordState.init, lookupA, setA]
  have hr2 : stepC (CStep.callRead c2 wd fn (some ⟨some k2, none, false⟩))
      ⟨[(readId wd fn, [PCont.res c1, PCont.rej c1])],
        [(c1, readMsg wd fn (some ⟨some k1, none, false⟩), false)],
        [], [], false⟩
      = ⟨[(readId wd fn, [PCont.res c1, PCont.rej c1, PCont.res c2,
            PCont.rej c2])],
          [(c1, readMsg wd fn (some ⟨some k1, none, false⟩), false)],
          [], [], false⟩ := by
    simp [stepC, shareableCall, lookupA, setA]
  have hr3 : stepC (CStep.resume c1)
      ⟨[(readId wd fn, [PCont.res c1, PCont.rej c1, PCont.res c2,
          PCont.rej c2])],
        [(c1, readMsg wd fn (some ⟨some k1, none, false⟩), false)],
        [], [], false⟩
      = ⟨[(readId wd fn, [PCont.res c1, PCont.rej c1, PCont.res c2,
            PCont.rej c2])], [],
          [readMsg wd fn (some ⟨some k1, none, false⟩)], [], false⟩ := by
    simp [stepC, takeResume]
  have hr4 : stepC (CStep.deliver ⟨some (readId wd fn),
        some (Val.bytes (file.drop k1)), none⟩)
      ⟨[(readId wd fn, [PCont.res c1, PCont.rej c1, PCont.res c2,
          PCont.rej c2])], [],
        [readMsg wd fn (some ⟨some k1, none, false⟩)], [], false⟩
      = ⟨[], [], [readMsg wd fn (some ⟨some k1, none, false⟩)],
          [(c1, Outcome.resolvedWith (some (Val.bytes (file.drop k1)))),
            (c2, Outcome.resolvedWith (some (Val.bytes (file.drop k1))))],
          false⟩ := by
    have hfan : fanOut ⟨some (readId wd fn),
        some (Val.bytes (file.drop k1)), none⟩
        [PCont.res c1, PCont.rej c1, PCont.res c2, PCont.rej c2]
        = [(c1, Outcome.resolvedWith (some (Val.bytes (file.drop k1)))),
            (c2, Outcome.resolvedWith (some (Val.bytes (file.drop k1))))] := by
      have h := fanOut_pair_cons
        ⟨some (readId wd fn), some (Val.bytes (file.drop k1)), none⟩ c1
        [PCont.res c2, PCont.rej c2]
      rw [h, fanOut_single]
      rfl
    simp [stepC, lookupA, eraseA, hfan]
  have hm : missingParams (readMsg wd fn (some ⟨some k1, none, false⟩))
      = false :=
    missingParams_false (readId wd fn) "read" (readId_ne_empty wd fn)
      (by decide) none (some ⟨some k1, none, false⟩)
  refine ⟨?_, ?_, ?_, ?_⟩
  · rw [runC_cons, hr1, runC_cons, hr2, runC_cons, hr3]
    rfl
  · simp only [readMsg] at hm
    simp [workerOnMessage, readMsg, hm, hk, readBuf_all]
  · rw [runC_cons, hr1, runC_cons, hr2, runC_cons, hr3, runC_cons, hr4]
    rfl
  · rw [runC_cons, hr1, runC_cons, hr2, runC_cons, hr3, runC_cons, hr4]
    rfl

theorem readFile_identity_excludes_offset_witness :
    (1 : Nat) ≤ ([10, 11, 12] : List Nat).length
    ∧ ((runC [CStep.callRead 1 "" "a" (some ⟨some 1, none, false⟩),
          CStep.callRead 2 "" "a" (some ⟨some 2, none, false⟩),
          CStep.resume 1] CoordState.init).dispatches
        = [readMsg "" "a" (some ⟨some 1, none, false⟩)]
      ∧ (workerOnMessage (readMsg "" "a" (some ⟨some 1, none, false⟩))
          Behavior.ok [10, 11, 12]).1
        = [WEvent.acquire,
            WEvent.post ⟨some (readId "" "a"),
              some (Val.bytes (([10, 11, 12] : List Nat).drop 1)), none⟩,
            WEvent.close]
      ∧ (runC [CStep.callRead 1 "" "a" (some ⟨some 1, none, false⟩),
          CStep.callRead 2 "" "a" (some ⟨some 2, none, false⟩),
          CStep.resume 1,
          CStep.deliver ⟨some (readId "" "a"),
            some (Val.bytes (([10, 11, 12] : List Nat).drop 1)), none⟩]
          CoordState.init).outcomes
        = [(1, Outcome.resolvedWith
              (some (Val.bytes (([10, 11, 12] : List Nat).drop 1)))),
            (2, Outcome.resolvedWith
              (some (Val.bytes (([10, 11, 12] : List Nat).drop 1))))]
      ∧ lookupA (readId "" "a")
          (runC [CStep.callRead 1 "" "a" (some ⟨some 1, none, false⟩),
            CStep.callRead 2 "" "a" (some ⟨some 2, none, false⟩),
            CStep.resume 1,
            CStep.deliver ⟨some (readId "" "a"),
              some (Val.bytes (([10, 11, 12] : List Nat).drop 1)), none⟩]
            CoordState.init).workerResponseHandler
        = none) :=
  ⟨by decide,
    readFile_identity_excludes_offset 1 2 1 2 "" "a" [10, 11, 12] (by decide)⟩

/-!
## Worker pool claim
-/

/-- Claim C6 (code bug): the happy path behaves as documented — after a
burst of 2 concurrently active workers completes, the idle queue holds
both until the reclamation timeout fires, which terminates all but the
first, leaving exactly one.  But the minimum-one-context guarantee is
violated: if the timeout fires while the pool's only worker is active
(idle queue empty), `idleWorkers.length = 1` GROWS the empty array with an
undefined hole; the worker then returns to idle at index 1, and the next
firing terminates it — the pool ends with zero live workers, the idle
queue holding only the hole, even though a context had been created. -/
theorem clearIdleWorkers_min_one_violation :
    (runP [PStep.startW, PStep.startW, PStep.completeW 0, PStep.completeW 1]
        PoolState.init).idleWorkers = [some 0, some 1]
    ∧ runP [PStep.startW, PStep.startW, PStep.completeW 0, PStep.completeW 1,
        PStep.timerFire] PoolState.init
      = ⟨2, [], [some 0], false, [1]⟩
    ∧ runP [PStep.startW, PStep.completeW 0, PStep.startW, PStep.timerFire,
        PStep.completeW 0, PStep.timerFire] PoolState.init
      = ⟨1, [], [none], false, [0]⟩
    ∧ liveWorkers (runP [PStep.startW, PStep.completeW 0, PStep.startW,
        PStep.timerFire, PStep.completeW 0, PStep.timerFire]
        PoolState.init) = [] := ⟨rfl, rfl, rfl, rfl⟩
